import Mathlib

/-
Verification development for the backend in src/backend/server.py.

The Python source is shallowly embedded below.  External collaborators
(the generative-language API, MongoDB, the filesystem, PyPDF2) are
modelled at the level of detail the routed handlers observe:
  * a PDF is a list of per-page extraction results (`Option String`,
    `none` for a page whose `extract_text()` returns `None`);
  * the MongoDB thread collection is a list of `Thread` documents and
    `find_one` / `insert_one` / `delete_one` / `update_one($push)` are
    given their documented first-match semantics;
  * the generation client is a parameter carrying the raw text the
    external model returned;
  * `ast.literal_eval` / JSON well-formedness are modelled for the
    fragment relevant to the handlers: dicts with double-quoted
    string keys, escape-free double-quoted strings, integer literals,
    lists, and the keyword literals (`True`/`False`/`None` for Python,
    `true`/`false`/`null` for JSON).  Floats, tuples, sets,
    single-quoted strings, string escapes and underscored integers are
    outside the modelled fragment; no claim below depends on them.
-/

/-- Values produced by decoding a JSON-shaped / Python-literal-shaped
substring (the fragment described in the header). -/
inductive JVal where
  | str : String → JVal
  | intVal : Int → JVal
  | boolVal : Bool → JVal
  | null : JVal
  | arr : List JVal → JVal
  | obj : List (String × JVal) → JVal

/-- Whitespace recognised by the decoder (space, newline, tab, CR). -/
def isWsChar (c : Char) : Bool :=
  c == ' ' || c == '\n' || c == '\t' || c == '\r'

/-- Drop leading whitespace from a character list. -/
def skipWs : List Char → List Char
  | [] => []
  | c :: cs => if isWsChar c then skipWs cs else c :: cs

/-- Parse the body of a double-quoted string (opening quote already
consumed); fails on a backslash (escapes are outside the fragment). -/
def parseStrChars : List Char → Option (List Char × List Char)
  | [] => none
  | c :: cs =>
    if c == '"' then some ([], cs)
    else if c == '\\' then none
    else
      match parseStrChars cs with
      | some (s, rest) => some (c :: s, rest)
      | none => none

/-- Split off a maximal run of decimal digits. -/
def takeDigits : List Char → List Char × List Char
  | [] => ([], [])
  | c :: cs =>
    if c.isDigit then
      let (ds, rest) := takeDigits cs
      (c :: ds, rest)
    else ([], c :: cs)

/-- Value of a digit run. -/
def digitsToInt (ds : List Char) : Int :=
  ds.foldl (fun a c => a * 10 + ((c.toNat : Int) - 48)) 0

/-- Parse an (optionally negated) integer literal. -/
def parseNum : List Char → Option (JVal × List Char)
  | [] => none
  | c :: cs =>
    if c == '-' then
      let (ds, rest) := takeDigits cs
      if ds.isEmpty then none else some (JVal.intVal (-(digitsToInt ds)), rest)
    else
      let (ds, rest) := takeDigits (c :: cs)
      if ds.isEmpty then none else some (JVal.intVal (digitsToInt ds), rest)

/-- Try each keyword literal of the table as a prefix of the input. -/
def matchKw : List (String × JVal) → List Char → Option (JVal × List Char)
  | [], _ => none
  | (w, v) :: kws, cs =>
    if w.toList.isPrefixOf cs then some (v, cs.drop w.toList.length)
    else matchKw kws cs

/-- Keyword literals of JSON. -/
def jsonKws : List (String × JVal) :=
  [("true", JVal.boolVal true), ("false", JVal.boolVal false), ("null", JVal.null)]

/-- Keyword literals accepted by `ast.literal_eval`. -/
def pyKws : List (String × JVal) :=
  [("True", JVal.boolVal true), ("False", JVal.boolVal false), ("None", JVal.null)]

/-- The three mutually recursive parsing entry points at a given fuel. -/
structure Parsers where
  val : List Char → Option (JVal × List Char)
  members : List Char → Option (List (String × JVal) × List Char)
  elems : List Char → Option (List JVal × List Char)

/-- Fuel-indexed recursive-descent decoder, parameterised by the
keyword table (the only point where the JSON grammar and the
`ast.literal_eval` grammar differ on the modelled fragment). -/
def mkParsers (kws : List (String × JVal)) : Nat → Parsers
  | 0 => ⟨fun _ => none, fun _ => none, fun _ => none⟩
  | Nat.succ fuel =>
    let p := mkParsers kws fuel
    { val := fun cs =>
        match skipWs cs with
        | [] => none
        | c :: rest =>
          if c == '\x7b' then
            match skipWs rest with
            | [] => none
            | c2 :: rest2 =>
              if c2 == '\x7d' then some (JVal.obj [], rest2)
              else
                match p.members rest with
                | some (ms, rest3) => some (JVal.obj ms, rest3)
                | none => none
          else if c == '[' then
            match skipWs rest with
            | [] => none
            | c2 :: rest2 =>
              if c2 == ']' then some (JVal.arr [], rest2)
              else
                match p.elems rest with
                | some (vs, rest3) => some (JVal.arr vs, rest3)
                | none => none
          else if c == '"' then
            match parseStrChars rest with
            | some (s, rest2) => some (JVal.str (String.mk s), rest2)
            | none => none
          else if c == '-' || c.isDigit then parseNum (c :: rest)
          else matchKw kws (c :: rest)
    , members := fun cs =>
        match skipWs cs with
        | [] => none
        | c :: cs1 =>
          if c == '"' then
            match parseStrChars cs1 with
            | some (key, cs2) =>
              match skipWs cs2 with
              | [] => none
              | c2 :: cs3 =>
                if c2 == ':' then
                  match p.val cs3 with
                  | some (v, cs4) =>
                    match skipWs cs4 with
                    | [] => none
                    | c3 :: cs5 =>
                      if c3 == ',' then
                        match p.members cs5 with
                        | some (ms, rest) => some ((String.mk key, v) :: ms, rest)
                        | none => none
                      else if c3 == '\x7d' then some ([(String.mk key, v)], cs5)
                      else none
                  | none => none
                else none
            | none => none
          else none
    , elems := fun cs =>
        match p.val cs with
        | some (v, cs1) =>
          match skipWs cs1 with
          | [] => none
          | c :: cs2 =>
            if c == ',' then
              match p.elems cs2 with
              | some (vs, rest) => some (v :: vs, rest)
              | none => none
            else if c == ']' then some ([v], cs2)
            else none
        | none => none }

/-- Run a decoder on a whole string: parse one value and require that
only whitespace remains (both `json` decoding and `ast.literal_eval`
reject trailing garbage). -/
def runParse (kws : List (String × JVal)) (s : String) : Option JVal :=
  match (mkParsers kws (2 * s.toList.length + 4)).val s.toList with
  | some (v, rest) => if skipWs rest = [] then some v else none
  | none => none

/-- Model of `ast.literal_eval` on the fragment (server.py line 387). -/
def literal_eval (s : String) : Option JVal := runParse pyKws s

/-- JSON well-formedness on the fragment: the spec-side notion used in
the parsing claims. -/
def jsonParse (s : String) : Option JVal := runParse jsonKws s

example : jsonParse ("\x7b\"a\": 1\x7d") = some (JVal.obj [("a", JVal.intVal 1)]) := rfl
example : literal_eval ("\x7b\"a\": 1\x7d") = some (JVal.obj [("a", JVal.intVal 1)]) := rfl
example : jsonParse ("\x7b\"ok\": true\x7d") = some (JVal.obj [("ok", JVal.boolVal true)]) := rfl
example : literal_eval ("\x7b\"ok\": true\x7d") = none := rfl
example : literal_eval ("\x7b\"ok\": True\x7d") = some (JVal.obj [("ok", JVal.boolVal true)]) := rfl
example : literal_eval ("") = none := rfl
example : jsonParse ("\x7b\"a\": [1, -2, \"x\"], \"b\": \x7b\x7d\x7d")
    = some (JVal.obj [("a", JVal.arr [JVal.intVal 1, JVal.intVal (-2), JVal.str ("x")]),
                      ("b", JVal.obj [])]) := rfl
example : JVal.obj [] ≠ JVal.obj [("a", JVal.intVal 1)] := by simp

mutual

/-- The value contains no boolean and no null, i.e. it never came from
a keyword literal. -/
def noBN : JVal → Bool
  | JVal.str _ => true
  | JVal.intVal _ => true
  | JVal.boolVal _ => false
  | JVal.null => false
  | JVal.arr vs => noBNArr vs
  | JVal.obj ms => noBNObj ms

/-- `noBN` at every element. -/
def noBNArr : List JVal → Bool
  | [] => true
  | v :: vs => noBN v && noBNArr vs

/-- `noBN` at every member value. -/
def noBNObj : List (String × JVal) → Bool
  | [] => true
  | kv :: ms => noBN kv.2 && noBNObj ms

end

/-- Index of the first occurrence of a character (Python `str.find`,
restricted to the found case). -/
def findIdxChar (ch : Char) : List Char → Option Nat
  | [] => none
  | d :: ds => if d == ch then some 0 else (findIdxChar ch ds).map Nat.succ

/-- Index of the last occurrence of a character (Python `str.rfind`,
restricted to the found case). -/
def rfindIdxChar (ch : Char) : List Char → Option Nat
  | [] => none
  | d :: ds =>
    match rfindIdxChar ch ds with
    | some i => some (i + 1)
    | none => if d == ch then some 0 else none

/-- Lines 381-386 of server.py: the substring `text[start:end]` from the
first opening brace to the last closing brace, `none` when either brace
is missing (the `ValueError` branch). -/
def sliceBraces (text : String) : Option String :=
  let cs := text.toList
  match findIdxChar '\x7b' cs, rfindIdxChar '\x7d' cs with
  | some s, some e => some (String.mk ((cs.drop s).take (e + 1 - s)))
  | _, _ => none

/-- Fields of the fallback dict built in server.py lines 391-396.  The
`err` argument stands for the interpolated `str(e)`. -/
def fallbackFields (err text : String) : List (String × JVal) :=
  [("score", JVal.intVal 0),
   ("feedback", JVal.str ("Could not parse evaluation")),
   ("error", JVal.str err),
   ("original_response", JVal.str text)]

/-- The `str(e)` of the `ValueError` raised when no brace is found. -/
def errNoJson : String := "No JSON found in response"

/-- Stand-in for the `str(e)` of a failing `ast.literal_eval` (the real
message also carries the offending node; no claim depends on its text). -/
def errMalformed : String := "malformed node or string"

/-- Model of `parse_json_response` (server.py lines 377-396): slice from
the first opening to the last closing brace, `ast.literal_eval` the
slice, and on any failure return the fallback dict. -/
def parse_json_response (text : String) : JVal :=
  match sliceBraces text with
  | none => JVal.obj (fallbackFields errNoJson text)
  | some s =>
    match literal_eval s with
    | some v => v
    | none => JVal.obj (fallbackFields errMalformed text)

example : parse_json_response ("score 5") = JVal.obj (fallbackFields errNoJson ("score 5")) := rfl
example : parse_json_response ("x \x7b\"a\": 3\x7d y") = JVal.obj [("a", JVal.intVal 3)] := rfl
example : parse_json_response ("\x7b oops \x7d")
    = JVal.obj (fallbackFields errMalformed ("\x7b oops \x7d")) := rfl

/-- Python dict assignment `d[k] = v`: replace the value of an existing
key in place, otherwise append the new key at the end. -/
def setKeyList (ms : List (String × JVal)) (k : String) (v : JVal) :
    List (String × JVal) :=
  if ms.any (fun kv => kv.1 == k) then
    ms.map (fun kv => if kv.1 == k then (k, v) else kv)
  else ms ++ [(k, v)]

/-- Body of an `/evaluate-answer` request (`request.get_json()`); `none`
for an absent key. -/
structure EvalReq where
  studentAnswer? : Option String
  modelAnswer? : Option String

/-- Responses of `evaluate_answer`.  `serverError` models the 500 path
that a non-dict evaluation would take at `evaluation[..] = ..`; it is
proved unreachable (`parse_json_response_obj`). -/
inductive EvalResp where
  | missingFields
  | payload (v : JVal)
  | serverError

/-- HTTP status of an `evaluate_answer` response. -/
def EvalResp.status : EvalResp → Nat
  | .missingFields => 400
  | .payload _ => 200
  | .serverError => 500

/-- Model of `evaluate_answer` (server.py lines 172-205) after the
external generation call returned `modelOut`; `now` is the interpolated
current timestamp. -/
def evaluate_answer (data : Option EvalReq) (modelOut now : String) : EvalResp :=
  match data with
  | none => .missingFields
  | some d =>
    match d.studentAnswer?, d.modelAnswer? with
    | some _, some _ =>
      match parse_json_response modelOut with
      | JVal.obj ms => .payload (JVal.obj (setKeyList ms ("timestamp") (JVal.str now)))
      | _ => .serverError
    | _, _ => .missingFields

example :
    evaluate_answer (some ⟨some ("a"), some ("b")⟩) ("no json here") ("T0")
      = .payload (JVal.obj (fallbackFields errNoJson ("no json here")
          ++ [("timestamp", JVal.str ("T0"))])) := rfl

/-- Python `str.strip()` on both ends. -/
def pyStrip (s : String) : String :=
  String.mk
    (((s.toList.dropWhile fun c => c.isWhitespace).reverse.dropWhile
        fun c => c.isWhitespace).reverse)

example : pyStrip ("  ab c  ") = "ab c" := rfl
example : pyStrip ("   ") = "" := rfl

/-- Model of Python `int(s)` on a string: optional surrounding
whitespace, optional sign, then decimal digits (underscored literals
are outside the modelled fragment). -/
def pyInt? (s : String) : Option Int :=
  match (pyStrip s).toList with
  | [] => none
  | c :: cs =>
    let (sgn, ds) :=
      if c == '-' then ((-1 : Int), cs)
      else if c == '+' then ((1 : Int), cs)
      else ((1 : Int), c :: cs)
    if ds ≠ [] ∧ ds.all (fun d => d.isDigit) then some (sgn * digitsToInt ds)
    else none

example : pyInt? (" 42 ") = some 42 := rfl
example : pyInt? ("-7") = some (-7) := rfl
example : pyInt? ("abc") = none := rfl
example : pyInt? ("") = none := rfl

/-- Split a character list at every separator, keeping empty groups
(Python `str.split(sep)` semantics). -/
def splitPList (p : Char → Bool) : List Char → List (List Char)
  | [] => [[]]
  | c :: cs =>
    let r := splitPList p cs
    if p c then [] :: r
    else
      match r with
      | [] => [[c]]
      | g :: gs => (c :: g) :: gs

/-- Python `s.split('-')`. -/
def pySplitDash (s : String) : List String :=
  (splitPList (fun c => c == '-') s.toList).map String.mk

example : pySplitDash ("5-2") = ["5", "2"] := rfl
example : pySplitDash ("abc") = ["abc"] := rfl
example : pySplitDash ("-3") = ["", "3"] := rfl
example : pySplitDash ("1-2-3") = ["1", "2", "3"] := rfl

/-- Python `s.split()` (whitespace split, empty groups dropped). -/
def pyWords (s : String) : List String :=
  ((splitPList (fun c => c.isWhitespace) s.toList).filter
      (fun g => !g.isEmpty)).map String.mk

example : pyWords (" a  bb \n c ") = ["a", "bb", "c"] := rfl
example : pyWords ("") = [] := rfl

/-- Model of `start, end = map(int, page_range.split('-'))`: `none` is
the `ValueError` branch (a non-integer component, or a component count
other than two making the unpacking fail). -/
def parseRange (page_range : String) : Option (Int × Int) :=
  match (pySplitDash page_range).map pyInt? with
  | [some a, some b] => some (a, b)
  | _ => none

example : parseRange ("5-2") = some (5, 2) := rfl
example : parseRange ("abc") = none := rfl
example : parseRange ("1-2-3") = none := rfl
example : parseRange ("all") = none := rfl
example : parseRange ("3") = none := rfl

/-- Normalise one bound of a Python slice `xs[i:j]` for a list of
length `n`: negative indices count from the end, and both ends clamp. -/
def pySliceBound (n : Nat) (i : Int) : Nat :=
  if i < 0 then (i + (n : Int)).toNat else min i.toNat n

/-- Python list slice `xs[i:j]` (step 1). -/
def pySlice (xs : List α) (i j : Int) : List α :=
  (xs.take (pySliceBound xs.length j)).drop (pySliceBound xs.length i)

example : pySlice [10, 20, 30, 40] 0 2 = [10, 20] := rfl
example : pySlice [10, 20, 30, 40] 4 2 = [] := rfl
example : pySlice [10, 20, 30, 40] (-1) 4 = [40] := rfl
example : pySlice [10, 20, 30, 40] 1 99 = [20, 30, 40] := rfl

/-- `"\n".join(...)`. -/
def joinNl : List String → String
  | [] => ""
  | [s] => s
  | s :: ss => s ++ "\n" ++ joinNl ss

/-- `"\n".join([page.extract_text() or "" for page in pages])`: a page
whose extraction returns `None` (undecodable) contributes `""`. -/
def extractJoin (pages : List (Option String)) : String :=
  joinNl (pages.map (fun p => p.getD ""))

example : extractJoin [some ("p1"), none, some ("p3")] = "p1\n\np3" := rfl

/-- Model of `extract_text_from_pdf` (server.py lines 54-64); `none` is
the uncaught `ValueError` of a malformed range.  The `lru_cache` is
observationally transparent for a pure function and is not modelled. -/
def extract_text_from_pdf (pages : List (Option String)) (page_range : String) :
    Option String :=
  if page_range == "all" then some (extractJoin pages)
  else
    match parseRange page_range with
    | none => none
    | some (a, b) => some (extractJoin (pySlice pages (a - 1) b))

/-- Page selection of `process_pdf` (server.py lines 110-118); `none` is
the caught `ValueError` answered with the 400 invalid-range response. -/
def selectedPages (pages : List (Option String)) (page_range : String) :
    Option (List (Option String)) :=
  if page_range == "all" then some pages
  else
    match parseRange page_range with
    | none => none
    | some (a, b) => some (pySlice pages (a - 1) b)

/-- Python `s[:n]` on a string. -/
def pyTake (n : Nat) (s : String) : String := String.mk (s.toList.take n)

/-- Success payload of `/process-pdf` (server.py lines 155-163);
`pages_processed = none` encodes the JSON string value `"all"`. -/
structure PdfOk where
  questions : String
  textPreview : String
  pagesProcessed : Option Nat
  wordCount : Nat
deriving DecidableEq

/-- Responses of `process_pdf` past the upload checks. -/
inductive PdfResp where
  | badRange
  | badParams
  | ok (r : PdfOk)
deriving DecidableEq

/-- HTTP status of a `process_pdf` response. -/
def PdfResp.status : PdfResp → Nat
  | .badRange => 400
  | .badParams => 400
  | .ok _ => 200

/-- Model of `process_pdf` (server.py lines 104-163), entered after the
upload was saved: `pages` is the opened PDF, `genOut` the text returned
by the external generation call. -/
def process_pdf (pages : List (Option String)) (page_range : String)
    (num_questions_raw : String) (question_type : String) (genOut : String) :
    PdfResp :=
  match selectedPages pages page_range with
  | none => .badRange
  | some ps =>
    let text := extractJoin ps
    match pyInt? num_questions_raw with
    | none => .badParams
    | some _ =>
      if question_type == "MCQ" || question_type == "Subjective" then
        .ok { questions := genOut
            , textPreview := pyTake 1000 text
            , pagesProcessed :=
                if page_range == "all" then none
                else some (pySplitDash page_range).length
            , wordCount := (pyWords text).length }
      else .badParams

example :
    process_pdf [some ("p1"), some ("p2"), some ("p3")] ("1-2") ("5") ("MCQ") ("out")
      = .ok ⟨"out", "p1\np2", some 2, 2⟩ := rfl
example :
    process_pdf [some ("p1")] ("abc") ("5") ("MCQ") ("out") = .badRange := rfl
example :
    process_pdf [some ("p1")] ("5-2") ("5") ("MCQ") ("out")
      = .ok ⟨"out", "", some 2, 0⟩ := rfl

/-- A message document (server.py lines 325-331). -/
structure Message where
  id : String
  text : String
  sender : String
  timestamp : String
  pinned : Bool
deriving DecidableEq

/-- A thread document (server.py lines 264-270). -/
structure Thread where
  id : String
  title : String
  description : String
  messages : List Message
  created_at : String
deriving DecidableEq

/-- The `threads` collection, in insertion order. -/
abbrev Store := List Thread

/-- `threads_collection.find_one(\x7b"id": tid\x7d)`: first matching
document. -/
def findThread (store : Store) (tid : String) : Option Thread :=
  List.find? (fun t => t.id == tid) store

/-- Body of a thread-creation request; `none` for an absent key. -/
structure CreateReq where
  title? : Option String
  description? : Option String

/-- Responses of the POST branch of `handle_threads`.  `insertError`
is the 500 of the inner `except` at server.py lines 281-283. -/
inductive CreateResp where
  | missingFields
  | created (t : Thread)
  | insertError (details : String)
deriving DecidableEq

/-- HTTP status of a thread-creation response. -/
def CreateResp.status : CreateResp → Nat
  | .missingFields => 400
  | .created _ => 201
  | .insertError _ => 500

/-- The dict `new_thread` as it stands after `insert_one`: pymongo
mutates the passed dict in place, adding an `_id` field that holds a
fresh `ObjectId`. -/
structure MutatedDoc where
  fields : Thread
  hasObjectId : Bool
deriving DecidableEq

/-- `threads_collection.insert_one(new_thread)` (server.py line 274):
stores the document and mutates the dict with the generated `ObjectId`
under `_id`; the returned `inserted_id` is that `ObjectId`, hence
truthy, so the `if result.inserted_id` guard always takes its success
branch (its else-branch 500 and the database-exception 500 are
unreachable for the pure collection model). -/
def insert_one (store : Store) (t : Thread) : Store × MutatedDoc :=
  (store ++ [t], ⟨t, true⟩)

/-- Flask `jsonify` applied to the mutated dict (server.py line 277):
the default JSON provider serializes the plain string/bool fields but
raises `TypeError` on a `bson.ObjectId`, and after `insert_one` the
dict carries one under `_id`. -/
def jsonifyDoc (d : MutatedDoc) : Except String Thread :=
  if d.hasObjectId then
    .error ("Object of type ObjectId is not JSON serializable")
  else .ok d.fields

/-- Model of the POST branch of `handle_threads` (server.py lines
255-287): `newId` is the generated `uuid4` string and `now` the
creation timestamp.  After a successful insert the handler evaluates
`jsonify(new_thread)` inside the inner `try`; the `TypeError` on the
`ObjectId` that `insert_one` wrote into the dict is caught at lines
281-283 and answered 500, so the 201 line is dead code. -/
def handle_threads_post (store : Store) (data : Option CreateReq)
    (newId now : String) : CreateResp × Store :=
  match data with
  | none => (.missingFields, store)
  | some d =>
    match d.title?, d.description? with
    | some ti, some de =>
      let t : Thread :=
        { id := newId, title := pyStrip ti, description := pyStrip de
        , messages := [], created_at := now }
      let pr := insert_one store t
      match jsonifyDoc pr.2 with
      | .ok t2 => (.created t2, pr.1)
      | .error e => (.insertError e, pr.1)
    | _, _ => (.missingFields, store)

/-- `threads_collection.delete_one(\x7b"id": tid\x7d)`: remove the
first matching document, reporting the deleted count. -/
def deleteOneThread (tid : String) : Store → Store × Nat
  | [] => ([], 0)
  | t :: ts =>
    if t.id == tid then (ts, 1)
    else
      let (ts', n) := deleteOneThread tid ts
      (t :: ts', n)

/-- Responses of the DELETE branch of `get_thread`. -/
inductive DeleteResp where
  | deleted
  | notFound
deriving DecidableEq

/-- HTTP status of a deletion response. -/
def DeleteResp.status : DeleteResp → Nat
  | .deleted => 200
  | .notFound => 404

/-- Model of the DELETE branch of `get_thread` (server.py lines
301-305). -/
def get_thread_delete (store : Store) (tid : String) : DeleteResp × Store :=
  let (s', n) := deleteOneThread tid store
  if n == 0 then (.notFound, s') else (.deleted, s')

/-- Body of a message-append request; `none` for an absent key. -/
structure MsgReq where
  text? : Option String
  sender? : Option String

/-- Responses of `add_message`.  `dbError` is the 500 branch taken when
`update_one` reports `modified_count != 1`; it is unreachable once the
thread was found (`pushFirst_found`). -/
inductive AddMsgResp where
  | missingFields
  | threadNotFound
  | created (m : Message)
  | dbError
deriving DecidableEq

/-- HTTP status of an `add_message` response. -/
def AddMsgResp.status : AddMsgResp → Nat
  | .missingFields => 400
  | .threadNotFound => 404
  | .created _ => 201
  | .dbError => 500

/-- `update_one(\x7b"id": tid\x7d, \x7b$push: messages\x7d)`: append
the message to the first matching document, reporting the modified
count. -/
def pushFirst (tid : String) (m : Message) : Store → Store × Nat
  | [] => ([], 0)
  | t :: ts =>
    if t.id == tid then ({ t with messages := t.messages ++ [m] } :: ts, 1)
    else
      let (ts', n) := pushFirst tid m ts
      (t :: ts', n)

/-- Model of `add_message` (server.py lines 311-345): `newId` is the
generated `uuid4` string, `now` the message timestamp. -/
def add_message (store : Store) (tid : String) (data : Option MsgReq)
    (newId now : String) : AddMsgResp × Store :=
  match data with
  | none => (.missingFields, store)
  | some d =>
    match d.text?, d.sender? with
    | some tx, some sd =>
      match findThread store tid with
      | none => (.threadNotFound, store)
      | some _ =>
        let m : Message :=
          { id := newId, text := pyStrip tx, sender := pyStrip sd
          , timestamp := now, pinned := false }
        let pr := pushFirst tid m store
        if pr.2 == 1 then (.created m, pr.1) else (.dbError, pr.1)
    | _, _ => (.missingFields, store)

/-- Responses of `report_message`. -/
inductive ReportResp where
  | threadNotFound
  | messageNotFound
  | reported
deriving DecidableEq

/-- HTTP status of a `report_message` response. -/
def ReportResp.status : ReportResp → Nat
  | .threadNotFound => 404
  | .messageNotFound => 404
  | .reported => 200

/-- Model of `report_message` (server.py lines 347-367): two lookups
and a log line; the handler performs no write. -/
def report_message (store : Store) (tid mid : String) : ReportResp × Store :=
  match findThread store tid with
  | none => (.threadNotFound, store)
  | some th =>
    match List.find? (fun m => m.id == mid) th.messages with
    | none => (.messageNotFound, store)
    | some _ => (.reported, store)

/-- Filesystem-and-registry state seen by `cleanup_file`: the set of
existing paths, the paths whose deletion raises `PermissionError`, and
the process-wide `_temp_files` list. -/
structure FsState where
  existing : List String
  locked : List String
  registry : List String
deriving DecidableEq

/-- Exceptions of the modelled filesystem calls. -/
inductive PyErr where
  | fileNotFound
  | permissionError
deriving DecidableEq

/-- Model of `os.unlink`. -/
def os_unlink (s : FsState) (p : String) : Except PyErr FsState :=
  if p ∈ s.existing then
    if p ∈ s.locked then .error .permissionError
    else .ok { s with existing := s.existing.filter (fun q => q != p) }
  else .error .fileNotFound

/-- The `try` body of `cleanup_file` (server.py lines 68-72): guarded
unlink, then removal of the first registry occurrence. -/
def cleanup_file_try (s : FsState) (p : String) : Except PyErr FsState :=
  if p ≠ "" ∧ p ∈ s.existing then
    match os_unlink s p with
    | .error e => .error e
    | .ok s1 =>
      if p ∈ s1.registry then .ok { s1 with registry := s1.registry.erase p }
      else .ok s1
  else .ok s

/-- Model of `cleanup_file` (server.py lines 66-74): any exception of
the body is caught and surfaced only as a logged warning (the second
component). -/
def cleanup_file (s : FsState) (p : String) : FsState × Option PyErr :=
  match cleanup_file_try s p with
  | .ok s1 => (s1, none)
  | .error e => (s, some e)

example :
    cleanup_file ⟨["a", "b"], [], ["a"]⟩ ("a") = (⟨["b"], [], []⟩, none) := rfl
example :
    cleanup_file ⟨["a"], ["a"], ["a"]⟩ ("a")
      = (⟨["a"], ["a"], ["a"]⟩, some .permissionError) := rfl
example :
    cleanup_file ⟨["b"], [], []⟩ ("a") = (⟨["b"], [], []⟩, none) := rfl

/-- On a valid 1-indexed inclusive range the Python slice `xs[a-1:b]`
is the plain drop/take sublist and has exactly `b - a + 1` elements. -/
theorem pySlice_valid_range {α : Type} (xs : List α) (a b : Int)
    (h1 : 1 ≤ a) (h2 : a ≤ b) (h3 : b ≤ (xs.length : Int)) :
    pySlice xs (a - 1) b = (xs.drop (a - 1).toNat).take (b - a + 1).toNat ∧
    ((pySlice xs (a - 1) b).length : Int) = b - a + 1 := by
  have hlo : pySliceBound xs.length (a - 1) = (a - 1).toNat := by
    unfold pySliceBound
    rw [if_neg (by omega)]
    omega
  have hhi : pySliceBound xs.length b = b.toNat := by
    unfold pySliceBound
    rw [if_neg (by omega)]
    omega
  have hsl : pySlice xs (a - 1) b = (xs.drop (a - 1).toNat).take (b - a + 1).toNat := by
    unfold pySlice
    rw [hlo, hhi, List.drop_take]
    congr 1
    omega
  refine ⟨hsl, ?_⟩
  rw [hsl]
  rw [List.length_take, List.length_drop]
  omega

/-- A successfully parsed range string has exactly two dash-separated
components. -/
theorem parseRange_split_length {r : String} {p : Int × Int}
    (h : parseRange r = some p) : (pySplitDash r).length = 2 := by
  unfold parseRange at h
  split at h
  next a b heq =>
    have hlen := congrArg List.length heq
    simpa using hlen
  next => exact absurd h (by simp)

/-- A successfully parsed range string is not the literal `"all"`. -/
theorem parseRange_ne_all {r : String} {p : Int × Int}
    (h : parseRange r = some p) : (r == "all") = false := by
  by_cases hr : r = "all"
  · subst hr
    rw [show parseRange ("all") = none from rfl] at h
    cases h
  · exact beq_eq_false_iff_ne.mpr hr

/-- C2 counterexample: the page range `"5-2"` — called invalid by the
spec — is accepted by `process_pdf`: it parses as the pair (5, 2), the
slice is empty, and the request is answered 200, not 400. -/
theorem process_pdf_inverted_range_accepted_cex :
    parseRange ("5-2") = some (5, 2) ∧
    process_pdf [some ("p1")] ("5-2") ("5") ("MCQ") ("out")
        = .ok ⟨"out", "", some 2, 0⟩ ∧
    (process_pdf [some ("p1")] ("5-2") ("5") ("MCQ") ("out")).status = 200 := by
  exact ⟨rfl, rfl, rfl⟩

/-- C2 (amended): every malformed page-range string — not `"all"` and
not two dash-separated integers — yields the 400 invalid-range
response, never a 500; a numerically inverted range such as `"5-2"`
parses and is answered 200 (see the counterexample). -/
theorem process_pdf_malformed_range_400 (pages : List (Option String))
    (r nq qt gen : String) (hall : r ≠ "all") (hr : parseRange r = none) :
    process_pdf pages r nq qt gen = .badRange ∧
    (process_pdf pages r nq qt gen).status = 400 ∧
    (process_pdf pages r nq qt gen).status ≠ 500 := by
  have hsel : selectedPages pages r = none := by
    unfold selectedPages
    rw [beq_eq_false_iff_ne.mpr hall]
    simp [hr]
  refine ⟨?_, ?_, ?_⟩ <;> simp [process_pdf, hsel, PdfResp.status]

/-- C2 witness at the malformed range `"abc"`. -/
theorem process_pdf_malformed_range_400_witness :
    process_pdf [some ("p1")] ("abc") ("5") ("MCQ") ("out") = .badRange ∧
    (process_pdf [some ("p1")] ("abc") ("5") ("MCQ") ("out")).status = 400 ∧
    (process_pdf [some ("p1")] ("abc") ("5") ("MCQ") ("out")).status ≠ 500 :=
  process_pdf_malformed_range_400 [some ("p1")] ("abc") ("5") ("MCQ") ("out")
    (by decide) rfl

/-- C6: for every page range parsing as `(a, b)` with
`1 ≤ a ≤ b ≤ pageCount`, extraction returns the page-texts of the
`b - a + 1` selected pages joined by newline, an undecodable page
(`none`) contributing the empty string rather than a failure. -/
theorem extract_text_valid_range_spec (pages : List (Option String)) (r : String)
    (a b : Int) (hr : parseRange r = some (a, b))
    (h1 : 1 ≤ a) (h2 : a ≤ b) (h3 : b ≤ (pages.length : Int)) :
    extract_text_from_pdf pages r
        = some (joinNl (((pages.drop (a - 1).toNat).take (b - a + 1).toNat).map
            (fun p => p.getD ""))) ∧
    (((pages.drop (a - 1).toNat).take (b - a + 1).toNat).length : Int) = b - a + 1 := by
  obtain ⟨hsl, hlen⟩ := pySlice_valid_range pages a b h1 h2 h3
  have hall := parseRange_ne_all hr
  constructor
  · unfold extract_text_from_pdf
    rw [hall]
    simp only [Bool.false_eq_true, if_false, hr]
    rw [show extractJoin (pySlice pages (a - 1) b)
        = joinNl ((pySlice pages (a - 1) b).map (fun p => p.getD "")) from rfl]
    rw [hsl]
  · rw [← hsl] at *
    exact hlen

/-- C6 witness: pages 1-3 of a three-page PDF whose middle page is
undecodable. -/
theorem extract_text_valid_range_spec_witness :
    extract_text_from_pdf [some ("p1"), none, some ("p3")] ("1-3")
        = some ("p1\n\np3") ∧
    ((([some ("p1"), none, some ("p3")] :
        List (Option String)).drop 0).take 3).length = 3 := by
  have h := extract_text_valid_range_spec [some ("p1"), none, some ("p3")] ("1-3")
    1 3 rfl (by decide) (by decide) (by decide)
  exact ⟨h.1, by decide⟩

/-- C10: for every accepted numeric page range, the `pages_processed`
metadata field is the number of dash-separated components of the range
string — always 2 — while the number of pages actually selected is
`b - a + 1`. -/
theorem pages_processed_metadata_spec (pages : List (Option String))
    (r nq qt gen : String) (a b : Int) (hr : parseRange r = some (a, b)) :
    (pySplitDash r).length = 2 ∧
    (∀ rec, process_pdf pages r nq qt gen = .ok rec → rec.pagesProcessed = some 2) ∧
    (1 ≤ a → a ≤ b → b ≤ (pages.length : Int) →
      ((pySlice pages (a - 1) b).length : Int) = b - a + 1) := by
  have h2 := parseRange_split_length hr
  have hne := parseRange_ne_all hr
  refine ⟨h2, ?_, ?_⟩
  · intro rec hok
    unfold process_pdf selectedPages at hok
    rw [hne] at hok
    simp only [Bool.false_eq_true, if_false, hr] at hok
    split at hok
    · cases hok
    · split at hok
      · cases hok
        simp [hne, h2]
      · cases hok
  · intro h1a h2a h3a
    exact (pySlice_valid_range pages a b h1a h2a h3a).2

/-- `update_one($push)` on a store whose first match is `th` reports
`modified_count = 1` and the first match afterwards carries the
appended message. -/
theorem pushFirst_found {tid : String} (m : Message) :
    ∀ {store : Store} {th : Thread}, findThread store tid = some th →
    (pushFirst tid m store).2 = 1 ∧
    findThread (pushFirst tid m store).1 tid
      = some { th with messages := th.messages ++ [m] } := by
  intro store
  induction store with
  | nil =>
    intro th h
    simp [findThread] at h
  | cons t ts ih =>
    intro th h
    unfold findThread at h
    by_cases ht : (t.id == tid) = true
    · rw [List.find?_cons_of_pos ts ht] at h
      cases h
      refine ⟨by simp [pushFirst, ht], ?_⟩
      unfold findThread
      rw [show pushFirst tid m (t :: ts)
          = ({ t with messages := t.messages ++ [m] } :: ts, 1) by simp [pushFirst, ht]]
      exact List.find?_cons_of_pos ts ht
    · rw [List.find?_cons_of_neg ts (by simpa using ht)] at h
      obtain ⟨ih1, ih2⟩ := ih h
      have hps : pushFirst tid m (t :: ts)
          = (t :: (pushFirst tid m ts).1, (pushFirst tid m ts).2) := by
        simp [pushFirst, ht]
      refine ⟨by rw [hps]; exact ih1, ?_⟩
      rw [hps]
      unfold findThread
      rw [List.find?_cons_of_neg _ (by simpa using ht)]
      exact ih2

/-- `delete_one` on a store without a match is the identity with
`deleted_count = 0`; with a match it removes exactly one matching
document. -/
theorem deleteOneThread_spec (tid : String) (store : Store) :
    (store.countP (fun t => t.id == tid) = 0 →
      deleteOneThread tid store = (store, 0)) ∧
    (0 < store.countP (fun t => t.id == tid) →
      (deleteOneThread tid store).2 = 1 ∧
      (deleteOneThread tid store).1.countP (fun t => t.id == tid)
        = store.countP (fun t => t.id == tid) - 1) := by
  induction store with
  | nil => simp [deleteOneThread]
  | cons t ts ih =>
    by_cases ht : (t.id == tid) = true
    · refine ⟨?_, ?_⟩
      · intro h0
        rw [List.countP_cons] at h0
        simp [ht] at h0
      · intro _
        refine ⟨by simp [deleteOneThread, ht], ?_⟩
        rw [show deleteOneThread tid (t :: ts) = (ts, 1) by simp [deleteOneThread, ht]]
        rw [List.countP_cons]
        simp [ht]
    · have hdel : deleteOneThread tid (t :: ts)
          = (t :: (deleteOneThread tid ts).1, (deleteOneThread tid ts).2) := by
        simp [deleteOneThread, ht]
      have hcnt : (t :: ts).countP (fun x => x.id == tid)
          = ts.countP (fun x => x.id == tid) := by
        rw [List.countP_cons]
        simp [ht]
      refine ⟨?_, ?_⟩
      · intro h0
        rw [hcnt] at h0
        rw [hdel, ih.1 h0]
      · intro hpos
        rw [hcnt] at hpos
        obtain ⟨i1, i2⟩ := ih.2 hpos
        refine ⟨by rw [hdel]; exact i1, ?_⟩
        rw [hdel, hcnt]
        rw [List.countP_cons]
        simp [ht]
        exact i2

/-- C10 witness: the accepted range `"1-3"` over a three-page PDF is
reported as `pages_processed = 2` although three pages were selected. -/
theorem pages_processed_metadata_spec_witness :
    (pySplitDash ("1-3")).length = 2 ∧
    (PdfOk.mk ("out") ("p1\np2\np3") (some 2) 3).pagesProcessed = some 2 ∧
    ((pySlice ([some ("p1"), some ("p2"), some ("p3")] :
        List (Option String)) 0 3).length : Int) = 3 := by
  have h := pages_processed_metadata_spec
    [some ("p1"), some ("p2"), some ("p3")] ("1-3") ("5") ("MCQ") ("out") 1 3 rfl
  exact ⟨h.1, h.2.1 ⟨"out", "p1\np2\np3", some 2, 3⟩ rfl,
    h.2.2 (by decide) (by decide) (by decide)⟩

/-- C7: deleting a thread whose identifier occurs exactly once (the
documented uniqueness invariant of generated identifiers) succeeds with
200 on the first call and is answered 404 on the second. -/
theorem delete_thread_twice_spec (store : Store) (tid : String)
    (h : store.countP (fun t => t.id == tid) = 1) :
    (get_thread_delete store tid).1 = .deleted ∧
    ((get_thread_delete store tid).1).status = 200 ∧
    (get_thread_delete (get_thread_delete store tid).2 tid).1 = .notFound ∧
    ((get_thread_delete (get_thread_delete store tid).2 tid).1).status = 404 := by
  obtain ⟨hn, hcnt⟩ := (deleteOneThread_spec tid store).2 (by omega)
  have hfst : get_thread_delete store tid = (.deleted, (deleteOneThread tid store).1) := by
    unfold get_thread_delete
    rw [show deleteOneThread tid store
        = ((deleteOneThread tid store).1, (deleteOneThread tid store).2) from rfl]
    rw [hn]
    rfl
  have hzero : (deleteOneThread tid store).1.countP (fun t => t.id == tid) = 0 := by
    omega
  have hsnd : get_thread_delete (deleteOneThread tid store).1 tid
      = (.notFound, (deleteOneThread tid store).1) := by
    unfold get_thread_delete
    rw [(deleteOneThread_spec tid (deleteOneThread tid store).1).1 hzero]
    rfl
  refine ⟨?_, ?_, ?_, ?_⟩
  · rw [hfst]
  · rw [hfst]
    rfl
  · rw [hfst, hsnd]
  · rw [hfst, hsnd]
    rfl

/-- C7 witness: a one-thread store. -/
theorem delete_thread_twice_spec_witness :
    (get_thread_delete [⟨"t1", "a", "d", [], "T0"⟩] ("t1")).1 = .deleted ∧
    ((get_thread_delete [⟨"t1", "a", "d", [], "T0"⟩] ("t1")).1).status = 200 ∧
    (get_thread_delete
        (get_thread_delete [⟨"t1", "a", "d", [], "T0"⟩] ("t1")).2 ("t1")).1
      = .notFound ∧
    ((get_thread_delete
        (get_thread_delete [⟨"t1", "a", "d", [], "T0"⟩] ("t1")).2 ("t1")).1).status
      = 404 :=
  delete_thread_twice_spec [⟨"t1", "a", "d", [], "T0"⟩] ("t1") rfl

/-- C8: `report_message` never changes the store, answers 200 exactly
when the thread exists and contains the message, and 404 otherwise. -/
theorem report_message_no_mutation_spec (store : Store) (tid mid : String) :
    (report_message store tid mid).2 = store ∧
    (((report_message store tid mid).1).status = 200 ↔
      ∃ th, findThread store tid = some th ∧
        ∃ m, List.find? (fun x => x.id == mid) th.messages = some m) ∧
    (((report_message store tid mid).1).status = 404 ↔
      ¬ ∃ th, findThread store tid = some th ∧
        ∃ m, List.find? (fun x => x.id == mid) th.messages = some m) := by
  unfold report_message
  rcases hf : findThread store tid with _ | th
  · simp [ReportResp.status]
  · rcases hm : List.find? (fun x => x.id == mid) th.messages with _ | m
    · simp [ReportResp.status, hm]
    · simp [ReportResp.status, hm]

/-- C3 counterexample: a creation request whose title is blank after
trimming is not answered 400 — its document is inserted and the
response is the 500 raised when `jsonify` meets the `ObjectId` that
`insert_one` wrote into the dict; a request with a fully valid title
is answered 500 the same way, never 201. -/
theorem create_thread_blank_title_cex :
    pyStrip ("   ") = "" ∧
    handle_threads_post [] (some ⟨some ("   "), some ("desc")⟩) ("id-1") ("T0")
        = (.insertError ("Object of type ObjectId is not JSON serializable"),
           [⟨"id-1", "", "desc", [], "T0"⟩]) ∧
    ((handle_threads_post [] (some ⟨some ("   "), some ("desc")⟩)
        ("id-1") ("T0")).1).status = 500 ∧
    handle_threads_post [] (some ⟨some ("Hi"), some ("There")⟩) ("id-2") ("T0")
        = (.insertError ("Object of type ObjectId is not JSON serializable"),
           [⟨"id-2", "Hi", "There", [], "T0"⟩]) ∧
    ((handle_threads_post [] (some ⟨some ("Hi"), some ("There")⟩)
        ("id-2") ("T0")).1).status = 500 :=
  ⟨rfl, rfl, rfl, rfl, rfl⟩

/-- C3 (amended): a creation request missing the title or description
key (or with no body) is answered 400; any request with both keys
present — even blank after trimming — inserts a thread carrying the
freshly generated identifier (distinct from every stored identifier
whenever the generator did not collide) into the collection, but the
response is the 500 serialization failure and never 201, because
`insert_one` mutates the dict with an `ObjectId` `_id` that `jsonify`
cannot serialize. -/
theorem handle_threads_post_spec (store : Store) (data : Option CreateReq)
    (newId now : String) :
    (data = none →
      handle_threads_post store data newId now = (.missingFields, store) ∧
      CreateResp.status .missingFields = 400) ∧
    (∀ d, data = some d → (d.title? = none ∨ d.description? = none) →
      handle_threads_post store data newId now = (.missingFields, store)) ∧
    (∀ d ti de, data = some d → d.title? = some ti → d.description? = some de →
      newId ∉ store.map Thread.id →
      handle_threads_post store data newId now
          = (.insertError ("Object of type ObjectId is not JSON serializable"),
             store ++ [⟨newId, pyStrip ti, pyStrip de, [], now⟩]) ∧
      ((handle_threads_post store data newId now).1).status = 500 ∧
      (∀ r, (handle_threads_post store data newId now).1 ≠ .created r) ∧
      ∀ t ∈ store, t.id ≠ newId) := by
  refine ⟨?_, ?_, ?_⟩
  · rintro rfl
    exact ⟨rfl, rfl⟩
  · rintro d rfl (hti | hde)
    · simp [handle_threads_post, hti]
    · rcases hti : d.title? with _ | ti
      · simp [handle_threads_post, hti]
      · simp [handle_threads_post, hti, hde]
  · rintro d ti de rfl hti hde hfresh
    have heq : handle_threads_post store (some d) newId now
        = (.insertError ("Object of type ObjectId is not JSON serializable"),
           store ++ [⟨newId, pyStrip ti, pyStrip de, [], now⟩]) := by
      simp [handle_threads_post, hti, hde, insert_one, jsonifyDoc]
    refine ⟨heq, by rw [heq]; rfl, ?_, ?_⟩
    · intro r
      rw [heq]
      simp
    · intro t ht he
      exact hfresh (List.mem_map.mpr ⟨t, ht, he⟩)

/-- C3 witness: one rejected body-less request, and one request with
both fields present whose document lands in the store while the
response is the 500 serialization failure. -/
theorem handle_threads_post_spec_witness :
    handle_threads_post [] none ("id-1") ("T0") = (.missingFields, []) ∧
    handle_threads_post [] (some ⟨some ("Hello"), some ("World")⟩) ("id-1") ("T0")
        = (.insertError ("Object of type ObjectId is not JSON serializable"),
           [⟨"id-1", "Hello", "World", [], "T0"⟩]) ∧
    ((handle_threads_post [] (some ⟨some ("Hello"), some ("World")⟩)
        ("id-1") ("T0")).1).status = 500 := by
  have h := handle_threads_post_spec []
    (some ⟨some ("Hello"), some ("World")⟩) ("id-1") ("T0")
  have h2 := handle_threads_post_spec ([] : Store) none ("id-1") ("T0")
  obtain ⟨ha, hb, -, -⟩ := h.2.2 _ _ _ rfl rfl rfl (by simp)
  exact ⟨(h2.1 rfl).1, ha, hb⟩

/-- C4 counterexample: appending a message whose text is blank after
trimming is answered 201 and stored, not rejected as the claim's
"requires non-empty text" part demands. -/
theorem add_message_blank_text_created_cex :
    pyStrip ("   ") = "" ∧
    add_message [⟨"t1", "ti", "de", [], "T0"⟩] ("t1")
        (some ⟨some ("   "), some ("bob")⟩) ("m1") ("T1")
        = (.created ⟨"m1", "", "bob", "T1", false⟩,
           [⟨"t1", "ti", "de", [⟨"m1", "", "bob", "T1", false⟩], "T0"⟩]) ∧
    (AddMsgResp.created ⟨"m1", "", "bob", "T1", false⟩).status = 201 :=
  ⟨rfl, rfl, rfl⟩

/-- C4 (amended): `add_message` rejects with 400 exactly the requests
missing the text or sender key (blankness after trimming is not
checked); with both keys present it answers 404 leaving the store
unchanged when the thread is absent, and otherwise appends to the
thread exactly one message carrying the generated identifier, the
timestamp, and an unset pinned flag. -/
theorem add_message_spec (store : Store) (tid : String) (data : Option MsgReq)
    (newId now : String) :
    (data = none →
      add_message store tid data newId now = (.missingFields, store) ∧
      AddMsgResp.status .missingFields = 400) ∧
    (∀ d, data = some d → (d.text? = none ∨ d.sender? = none) →
      add_message store tid data newId now = (.missingFields, store)) ∧
    (∀ d tx sd, data = some d → d.text? = some tx → d.sender? = some sd →
      findThread store tid = none →
      add_message store tid data newId now = (.threadNotFound, store) ∧
      AddMsgResp.status .threadNotFound = 404) ∧
    (∀ d tx sd th, data = some d → d.text? = some tx → d.sender? = some sd →
      findThread store tid = some th →
      (add_message store tid data newId now).1
          = .created ⟨newId, pyStrip tx, pyStrip sd, now, false⟩ ∧
      AddMsgResp.status (.created ⟨newId, pyStrip tx, pyStrip sd, now, false⟩) = 201 ∧
      findThread (add_message store tid data newId now).2 tid
          = some { th with messages :=
              th.messages ++ [⟨newId, pyStrip tx, pyStrip sd, now, false⟩] } ∧
      (th.messages ++ [(⟨newId, pyStrip tx, pyStrip sd, now, false⟩ : Message)]).length
          = th.messages.length + 1) := by
  refine ⟨?_, ?_, ?_, ?_⟩
  · rintro rfl
    exact ⟨rfl, rfl⟩
  · rintro d rfl (htx | hsd)
    · simp [add_message, htx]
    · rcases htx : d.text? with _ | tx
      · simp [add_message, htx]
      · simp [add_message, htx, hsd]
  · rintro d tx sd rfl htx hsd hnone
    exact ⟨by simp [add_message, htx, hsd, hnone], rfl⟩
  · rintro d tx sd th rfl htx hsd hth
    obtain ⟨hcnt, hfind⟩ :=
      pushFirst_found (⟨newId, pyStrip tx, pyStrip sd, now, false⟩ : Message) hth
    have hadd : add_message store tid
          (some d) newId now
        = (.created ⟨newId, pyStrip tx, pyStrip sd, now, false⟩,
           (pushFirst tid ⟨newId, pyStrip tx, pyStrip sd, now, false⟩ store).1) := by
      simp [add_message, htx, hsd, hth, hcnt]
    refine ⟨by rw [hadd], rfl, ?_, by simp⟩
    rw [hadd]
    exact hfind

/-- C4 witness: one successful append to an existing thread and one
404 on an absent thread. -/
theorem add_message_spec_witness :
    (add_message [⟨"t1", "ti", "de", [], "T0"⟩] ("t1")
        (some ⟨some ("hi"), some ("bob")⟩) ("m1") ("T1")).1
      = .created ⟨"m1", "hi", "bob", "T1", false⟩ ∧
    findThread (add_message [⟨"t1", "ti", "de", [], "T0"⟩] ("t1")
        (some ⟨some ("hi"), some ("bob")⟩) ("m1") ("T1")).2 ("t1")
      = some ⟨"t1", "ti", "de", [⟨"m1", "hi", "bob", "T1", false⟩], "T0"⟩ ∧
    add_message [] ("t9") (some ⟨some ("hi"), some ("bob")⟩) ("m1") ("T1")
      = (.threadNotFound, []) := by
  have h := add_message_spec [⟨"t1", "ti", "de", [], "T0"⟩] ("t1")
    (some ⟨some ("hi"), some ("bob")⟩) ("m1") ("T1")
  have h2 := add_message_spec [] ("t9") (some ⟨some ("hi"), some ("bob")⟩) ("m1") ("T1")
  obtain ⟨ha, _, hb, _⟩ := h.2.2.2 _ _ _ ⟨"t1", "ti", "de", [], "T0"⟩ rfl rfl rfl rfl
  exact ⟨ha, hb, (h2.2.2.1 _ _ _ rfl rfl rfl rfl).1⟩

/-- A JSON keyword literal decodes to a boolean or null. -/
theorem matchKw_jsonKws_noBN {cs r : List Char} {v : JVal}
    (h : matchKw jsonKws cs = some (v, r)) : noBN v = false := by
  simp only [jsonKws, matchKw] at h
  split at h
  · cases h
    simp [noBN]
  · split at h
    · cases h
      simp [noBN]
    · split at h
      · cases h
        simp [noBN]
      · cases h

/-- Core agreement: whenever the JSON-keyword decoder succeeds with a
value free of booleans and nulls, the Python-keyword decoder succeeds
with the same value and remainder — the two grammars differ only at
the keyword literals. -/
theorem parsers_agree : ∀ fuel : Nat,
    (∀ cs v rest, (mkParsers jsonKws fuel).val cs = some (v, rest) →
      noBN v = true → (mkParsers pyKws fuel).val cs = some (v, rest)) ∧
    (∀ cs ms rest, (mkParsers jsonKws fuel).members cs = some (ms, rest) →
      noBNObj ms = true → (mkParsers pyKws fuel).members cs = some (ms, rest)) ∧
    (∀ cs vs rest, (mkParsers jsonKws fuel).elems cs = some (vs, rest) →
      noBNArr vs = true → (mkParsers pyKws fuel).elems cs = some (vs, rest)) := by
  intro fuel
  induction fuel with
  | zero =>
    refine ⟨?_, ?_, ?_⟩ <;> intro cs a b h hn <;> simp [mkParsers] at h
  | succ fuel ih =>
    obtain ⟨ihV, ihM, ihE⟩ := ih
    refine ⟨?_, ?_, ?_⟩
    · intro cs v rest h hn
      simp only [mkParsers] at h ⊢
      rcases hsk : skipWs cs with _ | ⟨c, rest1⟩
      · simp [hsk] at h
      · simp only [hsk] at h ⊢
        by_cases hbrace : (c == '\x7b') = true
        · rw [if_pos hbrace] at h ⊢
          rcases hsk2 : skipWs rest1 with _ | ⟨c2, rest2⟩
          · simp [hsk2] at h
          · simp only [hsk2] at h ⊢
            by_cases hclose : (c2 == '\x7d') = true
            · rw [if_pos hclose] at h ⊢
              exact h
            · rw [if_neg hclose] at h ⊢
              rcases hm : (mkParsers jsonKws fuel).members rest1 with _ | ⟨ms, rest3⟩
              · rw [hm] at h
                cases h
              · simp only [hm] at h
                cases h
                have hnO : noBNObj ms = true := by simpa [noBN] using hn
                rw [ihM _ _ _ hm hnO]
        · rw [if_neg hbrace] at h ⊢
          by_cases hbrack : (c == '[') = true
          · rw [if_pos hbrack] at h ⊢
            rcases hsk2 : skipWs rest1 with _ | ⟨c2, rest2⟩
            · simp [hsk2] at h
            · simp only [hsk2] at h ⊢
              by_cases hclose : (c2 == ']') = true
              · rw [if_pos hclose] at h ⊢
                exact h
              · rw [if_neg hclose] at h ⊢
                rcases he : (mkParsers jsonKws fuel).elems rest1 with _ | ⟨vs, rest3⟩
                · rw [he] at h
                  cases h
                · simp only [he] at h
                  cases h
                  have hnA : noBNArr vs = true := by simpa [noBN] using hn
                  rw [ihE _ _ _ he hnA]
          · rw [if_neg hbrack] at h ⊢
            by_cases hq : (c == '"') = true
            · rw [if_pos hq] at h ⊢
              exact h
            · rw [if_neg hq] at h ⊢
              by_cases hnum : (c == '-' || c.isDigit) = true
              · rw [if_pos hnum] at h ⊢
                exact h
              · rw [if_neg hnum] at h ⊢
                exfalso
                rw [matchKw_jsonKws_noBN h] at hn
                cases hn
    · intro cs ms rest h hn
      simp only [mkParsers] at h ⊢
      rcases hsk : skipWs cs with _ | ⟨c, cs1⟩
      · simp [hsk] at h
      · simp only [hsk] at h ⊢
        by_cases hq : (c == '"') = true
        · rw [if_pos hq] at h ⊢
          rcases hps : parseStrChars cs1 with _ | ⟨key, cs2⟩
          · rw [hps] at h
            cases h
          · simp only [hps] at h ⊢
            rcases hsk2 : skipWs cs2 with _ | ⟨c2, cs3⟩
            · simp [hsk2] at h
            · simp only [hsk2] at h ⊢
              by_cases hcolon : (c2 == ':') = true
              · rw [if_pos hcolon] at h ⊢
                rcases hv : (mkParsers jsonKws fuel).val cs3 with _ | ⟨v, cs4⟩
                · rw [hv] at h
                  cases h
                · simp only [hv] at h
                  rcases hsk3 : skipWs cs4 with _ | ⟨c3, cs5⟩
                  · simp [hsk3] at h
                  · simp only [hsk3] at h
                    by_cases hcomma : (c3 == ',') = true
                    · rw [if_pos hcomma] at h
                      rcases hm : (mkParsers jsonKws fuel).members cs5 with _ | ⟨ms2, rest2⟩
                      · rw [hm] at h
                        cases h
                      · simp only [hm] at h
                        cases h
                        have hnv : noBN v = true ∧ noBNObj ms2 = true := by
                          simpa [noBNObj, Bool.and_eq_true] using hn
                        rw [ihV cs3 v cs4 hv hnv.1]
                        simp only [hsk3]
                        rw [if_pos hcomma]
                        rw [ihM _ _ _ hm hnv.2]
                    · rw [if_neg hcomma] at h
                      by_cases hclose : (c3 == '\x7d') = true
                      · rw [if_pos hclose] at h
                        cases h
                        have hnv : noBN v = true := by
                          simpa [noBNObj] using hn
                        rw [ihV cs3 v cs4 hv hnv]
                        simp only [hsk3]
                        rw [if_neg hcomma, if_pos hclose]
                      · rw [if_neg hclose] at h
                        cases h
              · rw [if_neg hcolon] at h
                cases h
        · rw [if_neg hq] at h
          cases h
    · intro cs vs rest h hn
      simp only [mkParsers] at h ⊢
      rcases hv : (mkParsers jsonKws fuel).val cs with _ | ⟨v, cs1⟩
      · rw [hv] at h
        cases h
      · simp only [hv] at h
        rcases hsk : skipWs cs1 with _ | ⟨c, cs2⟩
        · simp [hsk] at h
        · simp only [hsk] at h
          by_cases hcomma : (c == ',') = true
          · rw [if_pos hcomma] at h
            rcases he : (mkParsers jsonKws fuel).elems cs2 with _ | ⟨vs2, rest2⟩
            · rw [he] at h
              cases h
            · simp only [he] at h
              cases h
              have hnv : noBN v = true ∧ noBNArr vs2 = true := by
                simpa [noBNArr, Bool.and_eq_true] using hn
              rw [ihV cs v cs1 hv hnv.1]
              simp only [hsk]
              rw [if_pos hcomma]
              rw [ihE _ _ _ he hnv.2]
          · rw [if_neg hcomma] at h
            by_cases hbrack : (c == ']') = true
            · rw [if_pos hbrack] at h
              cases h
              have hnv : noBN v = true := by
                simpa [noBNArr] using hn
              rw [ihV cs v cs1 hv hnv]
              simp only [hsk]
              rw [if_neg hcomma, if_pos hbrack]
            · rw [if_neg hbrack] at h
              cases h

/-- Whole-string agreement: a JSON text denoting a boolean- and
null-free value is decoded identically by `ast.literal_eval`. -/
theorem literal_eval_of_jsonParse {s : String} {v : JVal}
    (h : jsonParse s = some v) (hn : noBN v = true) : literal_eval s = some v := by
  unfold jsonParse runParse at h
  unfold literal_eval runParse
  rcases hv : (mkParsers jsonKws (2 * s.toList.length + 4)).val s.toList
      with _ | ⟨v', rest⟩
  · rw [hv] at h
    cases h
  · simp only [hv] at h
    split at h
    next hsk =>
      cases h
      rw [(parsers_agree _).1 _ _ _ hv hn]
      show (if skipWs rest = [] then some v else none) = some v
      rw [if_pos hsk]
    next => cases h

/-- C1 counterexample: the text between the braces of
`\x7b"ok": true\x7d` is well-formed JSON, but `parse_json_response`
returns the fallback object — whose fields do not match the JSON's —
because `ast.literal_eval` rejects the JSON literal `true`. -/
theorem parse_json_response_json_true_cex :
    sliceBraces ("\x7b\"ok\": true\x7d") = some ("\x7b\"ok\": true\x7d") ∧
    jsonParse ("\x7b\"ok\": true\x7d") = some (JVal.obj [("ok", JVal.boolVal true)]) ∧
    parse_json_response ("\x7b\"ok\": true\x7d")
      = JVal.obj (fallbackFields errMalformed ("\x7b\"ok\": true\x7d")) ∧
    JVal.obj (fallbackFields errMalformed ("\x7b\"ok\": true\x7d"))
      ≠ JVal.obj [("ok", JVal.boolVal true)] := by
  refine ⟨rfl, rfl, rfl, ?_⟩
  simp [fallbackFields, errMalformed]

/-- C1 (amended): for every text whose substring between the first
opening and last closing brace is well-formed JSON denoting an object
free of `true`/`false`/`null` literals (so that it is also a valid
Python literal), `parse_json_response` returns exactly that object's
fields. -/
theorem parse_json_response_matches (text s : String) (ms : List (String × JVal))
    (hs : sliceBraces text = some s)
    (hjson : jsonParse s = some (JVal.obj ms))
    (hnb : noBNObj ms = true) :
    parse_json_response text = JVal.obj ms := by
  have hle : literal_eval s = some (JVal.obj ms) :=
    literal_eval_of_jsonParse hjson (by simp [noBN, hnb])
  unfold parse_json_response
  simp only [hs, hle]

/-- C1 witness: a JSON object embedded in surrounding prose. -/
theorem parse_json_response_matches_witness :
    parse_json_response ("noise \x7b\"a\": 1\x7d more")
      = JVal.obj [("a", JVal.intVal 1)] :=
  parse_json_response_matches ("noise \x7b\"a\": 1\x7d more") ("\x7b\"a\": 1\x7d")
    [("a", JVal.intVal 1)] rfl rfl (by simp [noBNObj, noBN])

/-- The decoder returns `none` on the empty input. -/
theorem parseVal_nil (kws : List (String × JVal)) (fuel : Nat) :
    (mkParsers kws fuel).val [] = none := by
  cases fuel with
  | zero => rfl
  | succ f => rfl

/-- A successful parse of an input starting with an opening brace is an
object. -/
theorem parseVal_brace (kws : List (String × JVal)) (fuel : Nat) (r : List Char)
    {v : JVal} {rest : List Char}
    (h : (mkParsers kws fuel).val ('\x7b' :: r) = some (v, rest)) :
    ∃ ms, v = JVal.obj ms := by
  cases fuel with
  | zero => cases h
  | succ f =>
    simp only [mkParsers] at h
    have hsk : skipWs ('\x7b' :: r) = '\x7b' :: r := rfl
    simp only [hsk] at h
    rw [if_pos (show ('\x7b' == '\x7b') = true from rfl)] at h
    rcases hsk2 : skipWs r with _ | ⟨c2, rest2⟩
    · simp [hsk2] at h
    · simp only [hsk2] at h
      by_cases hc : (c2 == '\x7d') = true
      · rw [if_pos hc] at h
        cases h
        exact ⟨[], rfl⟩
      · rw [if_neg hc] at h
        rcases hm : (mkParsers kws f).members r with _ | ⟨ms, rest3⟩
        · rw [hm] at h
          cases h
        · simp only [hm] at h
          cases h
          exact ⟨ms, rfl⟩

/-- `str.find` really points at the character. -/
theorem findIdxChar_drop (ch : Char) :
    ∀ (cs : List Char) (i : Nat), findIdxChar ch cs = some i →
      ∃ suf, cs.drop i = ch :: suf := by
  intro cs
  induction cs with
  | nil =>
    intro i h
    cases h
  | cons d ds ih =>
    intro i h
    unfold findIdxChar at h
    by_cases hd : (d == ch) = true
    · rw [if_pos hd] at h
      cases h
      exact ⟨ds, by simp [beq_iff_eq.mp hd]⟩
    · rw [if_neg hd] at h
      rcases hm : findIdxChar ch ds with _ | j
      · rw [hm] at h
        cases h
      · rw [hm] at h
        cases h
        obtain ⟨suf, hs⟩ := ih j hm
        exact ⟨suf, by simpa using hs⟩

/-- The brace slice is empty or starts with the opening brace. -/
theorem sliceBraces_shape {text s : String} (h : sliceBraces text = some s) :
    s.toList = [] ∨ ∃ r, s.toList = '\x7b' :: r := by
  simp only [sliceBraces] at h
  rcases hf : findIdxChar '\x7b' text.toList with _ | i
  · rw [hf] at h
    cases h
  · rcases he : rfindIdxChar '\x7d' text.toList with _ | e
    · simp only [hf, he] at h
      cases h
    · simp only [hf, he] at h
      cases h
      obtain ⟨suf, hsuf⟩ := findIdxChar_drop _ _ _ hf
      show (text.toList.drop i).take (e + 1 - i) = []
        ∨ ∃ r, (text.toList.drop i).take (e + 1 - i) = '\x7b' :: r
      rw [hsuf]
      rcases hk : e + 1 - i with _ | m
      · left
        rfl
      · right
        exact ⟨suf.take m, by simp⟩

/-- `parse_json_response` always returns a dict: the slice, when it
decodes at all, starts with an opening brace, and the fallback is a
dict.  Hence the 500 path of `evaluate_answer` at
`evaluation['timestamp'] = ...` is unreachable. -/
theorem parse_json_response_obj (text : String) :
    ∃ ms, parse_json_response text = JVal.obj ms := by
  rcases hs : sliceBraces text with _ | s
  · refine ⟨fallbackFields errNoJson text, ?_⟩
    unfold parse_json_response
    rw [hs]
  · rcases hle : literal_eval s with _ | v
    · refine ⟨fallbackFields errMalformed text, ?_⟩
      unfold parse_json_response
      simp only [hs, hle]
    · rcases sliceBraces_shape hs with hnil | ⟨r, hr⟩
      · exfalso
        have hle' := hle
        unfold literal_eval runParse at hle'
        rw [hnil, parseVal_nil] at hle'
        cases hle'
      · have hle' := hle
        unfold literal_eval runParse at hle'
        rw [hr] at hle'
        rcases hv : (mkParsers pyKws (2 * ('\x7b' :: r).length + 4)).val ('\x7b' :: r)
            with _ | ⟨v', rest⟩
        · rw [hv] at hle'
          cases hle'
        · simp only [hv] at hle'
          obtain ⟨ms, hms⟩ := parseVal_brace _ _ _ hv
          refine ⟨ms, ?_⟩
          unfold parse_json_response
          simp only [hs, hle]
          split at hle'
          · cases hle'
            exact hms
          · cases hle'

/-- C5: on any parsing failure — no brace found, or a slice that
`ast.literal_eval` rejects — `parse_json_response` returns the fixed
fallback object (zero score, fixed message, error string, original
text), and `evaluate_answer` returns the parsed-or-fallback object,
extended with a timestamp, as a 200 payload rather than a failure. -/
theorem parse_failure_fallback_spec (text : String) :
    (sliceBraces text = none →
      parse_json_response text = JVal.obj (fallbackFields errNoJson text)) ∧
    (∀ s, sliceBraces text = some s → literal_eval s = none →
      parse_json_response text = JVal.obj (fallbackFields errMalformed text)) ∧
    (∀ d now, (d : EvalReq).studentAnswer? ≠ none → d.modelAnswer? ≠ none →
      ∃ ms, parse_json_response text = JVal.obj ms ∧
        evaluate_answer (some d) text now
          = .payload (JVal.obj (setKeyList ms ("timestamp") (JVal.str now))) ∧
        (evaluate_answer (some d) text now).status = 200) := by
  refine ⟨?_, ?_, ?_⟩
  · intro h
    unfold parse_json_response
    rw [h]
  · intro s hs hle
    unfold parse_json_response
    simp only [hs, hle]
  · intro d now hst hmo
    obtain ⟨ms, hms⟩ := parse_json_response_obj text
    rcases hsa : d.studentAnswer? with _ | sa
    · exact absurd hsa hst
    · rcases hma : d.modelAnswer? with _ | ma
      · exact absurd hma hmo
      · have hev : evaluate_answer (some d) text now
            = .payload (JVal.obj (setKeyList ms ("timestamp") (JVal.str now))) := by
          unfold evaluate_answer
          simp only [hsa, hma, hms]
        exact ⟨ms, hms, hev, by rw [hev]; rfl⟩

/-- C5 witness: a brace-less model output and a malformed slice, each
answered with the fallback payload and status 200. -/
theorem parse_failure_fallback_spec_witness :
    parse_json_response ("plain") = JVal.obj (fallbackFields errNoJson ("plain")) ∧
    parse_json_response ("\x7b bad \x7d")
      = JVal.obj (fallbackFields errMalformed ("\x7b bad \x7d")) ∧
    (evaluate_answer (some ⟨some ("a"), some ("b")⟩) ("plain") ("T0")).status = 200 := by
  have h1 := parse_failure_fallback_spec ("plain")
  have h2 := parse_failure_fallback_spec ("\x7b bad \x7d")
  obtain ⟨ms, _, _, hst⟩ := h1.2.2 ⟨some ("a"), some ("b")⟩ ("T0") (by simp) (by simp)
  exact ⟨h1.1 rfl, h2.2.1 ("\x7b bad \x7d") rfl rfl, hst⟩

/-- C9: `cleanup_file` surfaces any exception of its body only as a
logged warning leaving the state unchanged — it never raises to its
caller — and a second call on the same path leaves the state of the
first call untouched. -/
theorem cleanup_file_spec (s : FsState) (p : String) :
    (∀ e, cleanup_file_try s p = Except.error e → cleanup_file s p = (s, some e)) ∧
    (cleanup_file (cleanup_file s p).1 p).1 = (cleanup_file s p).1 := by
  constructor
  · intro e he
    unfold cleanup_file
    rw [he]
  · rcases htry : cleanup_file_try s p with e | s2
    · have hc : cleanup_file s p = (s, some e) := by
        unfold cleanup_file
        rw [htry]
      rw [hc]
      show (cleanup_file s p).1 = s
      rw [hc]
    · have hc : cleanup_file s p = (s2, none) := by
        unfold cleanup_file
        rw [htry]
      by_cases hg : p ≠ "" ∧ p ∈ s.existing
      · have hex : s2.existing = s.existing.filter (fun q => q != p) := by
          by_cases hl : p ∈ s.locked
          · have herr : cleanup_file_try s p = .error .permissionError := by
              unfold cleanup_file_try os_unlink
              rw [if_pos hg, if_pos hg.2, if_pos hl]
            rw [herr] at htry
            cases htry
          · have hos : os_unlink s p
                = .ok { s with existing := s.existing.filter (fun q => q != p) } := by
              unfold os_unlink
              rw [if_pos hg.2, if_neg hl]
            unfold cleanup_file_try at htry
            rw [if_pos hg] at htry
            simp only [hos] at htry
            split at htry
            · cases htry
              rfl
            · cases htry
              rfl
        have hnoin : ¬(p ≠ "" ∧ p ∈ s2.existing) := by
          rintro ⟨-, hmem⟩
          rw [hex] at hmem
          have := List.mem_filter.mp hmem
          simp at this
        have h2 : cleanup_file s2 p = (s2, none) := by
          unfold cleanup_file cleanup_file_try
          rw [if_neg hnoin]
        rw [hc]
        show (cleanup_file s2 p).1 = s2
        rw [h2]
      · have hok : cleanup_file_try s p = .ok s := by
          unfold cleanup_file_try
          rw [if_neg hg]
        have hs2 : s = s2 := by
          rw [hok] at htry
          exact Except.ok.inj htry
        subst hs2
        have h2 : cleanup_file s p = (s, none) := by
          unfold cleanup_file
          rw [hok]
        rw [hc]
        show (cleanup_file s p).1 = s
        rw [h2]

/-- C9 witness: a permission-locked file whose deletion failure is
logged, and the idempotence of the call at that state. -/
theorem cleanup_file_spec_witness :
    cleanup_file ⟨["a"], ["a"], ["a"]⟩ ("a")
      = (⟨["a"], ["a"], ["a"]⟩, some .permissionError) ∧
    (cleanup_file (cleanup_file ⟨["a"], ["a"], ["a"]⟩ ("a")).1 ("a")).1
      = (cleanup_file ⟨["a"], ["a"], ["a"]⟩ ("a")).1 := by
  have h := cleanup_file_spec ⟨["a"], ["a"], ["a"]⟩ ("a")
  exact ⟨h.1 .permissionError rfl, h.2⟩
